import Mathlib

/-!
# Verification of the rlite client adapter (`src/lib.rs`)

Shallow embedding of the reply decoder (`Reply::new`), the connection
operations (`Rlite::file`, `Rlite::write_command`, `Rlite::read_reply`)
and the foreign data they consume.

Modelling conventions:
* The foreign reply record `RliteReply` (C struct with fields `rtype`,
  `integer`, `len`, `st`, `elements`, `element`) is modelled as a tree:
  the `len` bytes behind the `st` pointer become the list `st : List Nat`
  (each entry one byte), and the `elements` child pointers behind
  `element` become the list `element : List RliteReply`.  Thus
  `len = st.length` and `elements = element.length`.
* Machine integers: the C `unsigned long long` field is a `Nat`, and the
  Rust cast `as i64` is the explicit function `toI64` (reduce mod 2^64,
  reinterpret as two-complement).  `usize`/`c_int` casts are handled
  analogously where they matter.
* A Rust `String` is its UTF-8 byte vector, so status and error texts are
  carried as the validated byte list; `utf8Valid` is the UTF-8 wellformedness
  check that `String::from_utf8` performs.
* Fallible Rust code becomes a result type; a Rust panic (a failed
  `unwrap`) is the distinguished outcome `panic`, different from `Err`.
* Foreign calls (`rliteConnect`, `rliteAppendCommandArgv`, `rliteGetReply`)
  are oracles passed in as explicit arguments; the observable calls the
  wrapper makes (decode, `rliteFreeReplyObject`) are recorded in an event
  trace.
-/

/-- One byte (0..255); we use plain `Nat` and never need the bound. -/
abbrev Byte := Nat

/-- `b` is a UTF-8 continuation byte (`0x80..0xBF`). -/
def isCont (b : Byte) : Bool := 0x80 ≤ b && b ≤ 0xBF

/-- UTF-8 wellformedness of a byte sequence, exactly the check performed by
the Rust `String::from_utf8`: ASCII, 2/3/4-byte sequences with the standard
restrictions excluding overlong forms, surrogates and values above
`0x10FFFF`. -/
def utf8Valid : List Byte → Bool
  | [] => true
  | b :: rest =>
    if b ≤ 0x7F then utf8Valid rest
    else if 0xC2 ≤ b && b ≤ 0xDF then
      match rest with
      | b1 :: r => isCont b1 && utf8Valid r
      | [] => false
    else if b = 0xE0 then
      match rest with
      | b1 :: b2 :: r => (0xA0 ≤ b1 && b1 ≤ 0xBF) && isCont b2 && utf8Valid r
      | _ => false
    else if (0xE1 ≤ b && b ≤ 0xEC) || b = 0xEE || b = 0xEF then
      match rest with
      | b1 :: b2 :: r => isCont b1 && isCont b2 && utf8Valid r
      | _ => false
    else if b = 0xED then
      match rest with
      | b1 :: b2 :: r => (0x80 ≤ b1 && b1 ≤ 0x9F) && isCont b2 && utf8Valid r
      | _ => false
    else if b = 0xF0 then
      match rest with
      | b1 :: b2 :: b3 :: r =>
          (0x90 ≤ b1 && b1 ≤ 0xBF) && isCont b2 && isCont b3 && utf8Valid r
      | _ => false
    else if 0xF1 ≤ b && b ≤ 0xF3 then
      match rest with
      | b1 :: b2 :: b3 :: r => isCont b1 && isCont b2 && isCont b3 && utf8Valid r
      | _ => false
    else if b = 0xF4 then
      match rest with
      | b1 :: b2 :: b3 :: r =>
          (0x80 ≤ b1 && b1 ≤ 0x8F) && isCont b2 && isCont b3 && utf8Valid r
      | _ => false
    else false

/-- The Rust cast `u64 as i64`: reduce modulo `2^64`, then reinterpret as a
two-complement signed 64-bit value. -/
def toI64 (n : Nat) : Int :=
  let m : Nat := n % 2 ^ 64
  if m < 2 ^ 63 then (m : Int) else (m : Int) - 2 ^ 64

/-- The Rust cast `usize as i32` (`command.len() as c_int`). -/
def toI32 (n : Nat) : Int :=
  let m : Nat := n % 2 ^ 32
  if m < 2 ^ 31 then (m : Int) else (m : Int) - 2 ^ 32

/-- Reply tag constants from `lib.rs`. -/
abbrev RLITE_REPLY_STRING : Int := 1
abbrev RLITE_REPLY_ARRAY : Int := 2
abbrev RLITE_REPLY_INTEGER : Int := 3
abbrev RLITE_REPLY_NIL : Int := 4
abbrev RLITE_REPLY_STATUS : Int := 5
abbrev RLITE_REPLY_ERROR : Int := 6

/-- The foreign reply record `RliteReply`.  `st` is the list of the `len`
bytes behind the byte pointer of the struct; `element` is the list of child
records behind the `elements`-long pointer array of the struct. -/
inductive RliteReply where
  | mk (rtype : Int) (integer : Nat) (st : List Byte) (element : List RliteReply)

/-- The decoded owned value, `enum Reply` from `lib.rs`. -/
inductive Reply where
  | Nil : Reply
  | Integer (n : Int) : Reply
  | Data (b : List Byte) : Reply
  | Status (s : List Byte) : Reply
  | Array (v : List Reply) : Reply

/-- Outcome of `Reply::new`, with a Rust panic (failed `unwrap`) kept
distinct from a returned `Err`.  The `err` payload is the UTF-8 byte
sequence of the Rust `String` carried by the `Err`. -/
inductive DecodeResult where
  | ok (r : Reply)
  | err (msg : List Byte)
  | panic

/-- Outcome of decoding a list of child records in order (the
`for i in 0..elements` loop body of the array arm). -/
inductive ListDecodeResult where
  | ok (vs : List Reply)
  | err (msg : List Byte)
  | panic

/-- The UTF-8 bytes of the string `"Unknown reply type "`. -/
def unknownPrefix : List Byte :=
  [85, 110, 107, 110, 111, 119, 110, 32, 114, 101, 112, 108, 121, 32,
   116, 121, 112, 101, 32]

/-- Decimal digit bytes of a natural number, as the Rust `format!("{}", n)`
produces them. -/
def natDecBytes (n : Nat) : List Byte :=
  (Nat.toDigits 10 n).map Char.toNat

/-- Decimal byte rendering of an integer (leading `-` when negative). -/
def intDecBytes : Int → List Byte
  | Int.ofNat n => natDecBytes n
  | Int.negSucc n => 45 :: natDecBytes (n + 1)

/-- Bytes of the message `format!("Unknown reply type {}", t)`. -/
def unknownMsg (t : Int) : List Byte := unknownPrefix ++ intDecBytes t

mutual

/-- `Reply::new` from `lib.rs`: dispatch on the `rtype` field of the record.
The Rust `match` arms appear in source order (string, status, error, nil,
integer, array, fallback); `str_to_vec!` becomes taking the byte
list, and `String::from_utf8(..).unwrap()` becomes the UTF-8 check with
`panic` on failure. -/
def Reply.new : RliteReply → DecodeResult
  | .mk rtype integer st element =>
    if rtype = RLITE_REPLY_STRING then .ok (.Data st)
    else if rtype = RLITE_REPLY_STATUS then
      if utf8Valid st then .ok (.Status st) else .panic
    else if rtype = RLITE_REPLY_ERROR then
      if utf8Valid st then .err st else .panic
    else if rtype = RLITE_REPLY_NIL then .ok .Nil
    else if rtype = RLITE_REPLY_INTEGER then .ok (.Integer (toI64 integer))
    else if rtype = RLITE_REPLY_ARRAY then
      match Reply.newList element with
      | .ok vs => .ok (.Array vs)
      | .err m => .err m
      | .panic => .panic
    else .err (unknownMsg rtype)

/-- The loop of the array arm: decode the children left to right, stopping at
the first `Err` (Rust `try!`) or panic. -/
def Reply.newList : List RliteReply → ListDecodeResult
  | [] => .ok []
  | r :: rest =>
    match Reply.new r with
    | .ok v =>
      match Reply.newList rest with
      | .ok vs => .ok (v :: vs)
      | .err m => .err m
      | .panic => .panic
    | .err m => .err m
    | .panic => .panic

end

/-- The UTF-8 bytes of `"Failed"`, the message of the `Err` that
`read_reply` returns when `rliteGetReply` reports failure. -/
def failedMsg : List Byte := [70, 97, 105, 108, 101, 100]

/-- Observable actions `read_reply` performs on a fetched record:
the call to `Reply::new` and the call to `rliteFreeReplyObject`. -/
inductive REvent where
  | decode
  | free
deriving DecidableEq

/-- One run of `Rlite::read_reply`: its returned value together with the
trace of observable actions on the fetched record, in order. -/
structure ReadReplyRun where
  result : DecodeResult
  events : List REvent

/-- `Rlite::read_reply` from `lib.rs`.  The foreign call `rliteGetReply`
is represented by its outputs: `status` (its return code) and `reply`
(the written reply pointer, `none` for null).  Following the source: on
status 0 a null pointer returns `Ok(Reply::Nil)` at once; otherwise the
record is decoded and then freed — unless the decode panics, in which
case the unwinding skips the free call.  On nonzero status the function
returns `Err("Failed".to_owned())` without touching the pointer. -/
def read_reply (status : Int) (reply : Option RliteReply) : ReadReplyRun :=
  if status = 0 then
    match reply with
    | none => { result := .ok .Nil, events := [] }
    | some r =>
      match Reply.new r with
      | .ok v => { result := .ok v, events := [.decode, .free] }
      | .err m => { result := .err m, events := [.decode, .free] }
      | .panic => { result := .panic, events := [.decode] }
  else { result := .err failedMsg, events := [] }

/-- The arguments `Rlite::write_command` hands to `rliteAppendCommandArgv`:
the count `command.len() as c_int`, and the two parallel vectors built by
the loop — `argv` (each entry the bytes behind the pushed `c.as_ptr()`)
and `argvlen` (each entry the pushed `c.len()`). -/
structure EncodedCommand where
  argc : Int
  argv : List (List Byte)
  argvlen : List Nat

/-- The encoding loop of `Rlite::write_command`. -/
def encodeCommand (command : List (List Byte)) : EncodedCommand :=
  { argc := toI32 command.length
    argv := command
    argvlen := command.map List.length }

/-- `Rlite::write_command` from `lib.rs`.  The foreign entry point
`rliteAppendCommandArgv` is the oracle `engine`, applied to the encoded
arguments; the function returns `Ok(())` exactly on return code 0. -/
def write_command (command : List (List Byte)) (engine : EncodedCommand → Int) :
    Except Unit Unit :=
  if engine (encodeCommand command) = 0 then Except.ok () else Except.error ()

/-- Outcome of `Rlite::file`: `Ok(Rlite { rlite })` with the obtained
handle, `Err(())`, or a panic (failed `unwrap`). -/
inductive FileResult where
  | ok (handle : Nat)
  | err
  | panic
deriving DecidableEq

/-- `Rlite::file` from `lib.rs`.  The path argument is the OS byte string
of the `&Path`; `rliteConnect` is the oracle giving the returned handle
(`0` for a null pointer).  Following the source: `path.to_str()` yields
`None` (so `Err(())`) when the bytes are not UTF-8; then
`CString::new(f).unwrap()` panics when the bytes contain an interior NUL;
then the result of the connect call is checked against null. -/
def Rlite.file (path : List Byte) (rliteConnect : List Byte → Nat) : FileResult :=
  if utf8Valid path then
    if path.contains 0 then .panic
    else
      let rlite : Nat := rliteConnect path
      if rlite ≠ 0 then .ok rlite else .err
  else .err

/-! ## Decoder unfolding lemmas, one per tag -/

theorem new_string_eq (n : Nat) (st : List Byte) (el : List RliteReply) :
    Reply.new (.mk RLITE_REPLY_STRING n st el) = .ok (.Data st) := by
  simp [Reply.new]

theorem new_status_eq (n : Nat) (st : List Byte) (el : List RliteReply) :
    Reply.new (.mk RLITE_REPLY_STATUS n st el) =
      if utf8Valid st then .ok (.Status st) else .panic := by
  simp [Reply.new]

theorem new_error_eq (n : Nat) (st : List Byte) (el : List RliteReply) :
    Reply.new (.mk RLITE_REPLY_ERROR n st el) =
      if utf8Valid st then .err st else .panic := by
  simp [Reply.new]

theorem new_nil_eq (n : Nat) (st : List Byte) (el : List RliteReply) :
    Reply.new (.mk RLITE_REPLY_NIL n st el) = .ok .Nil := by
  simp [Reply.new]

theorem new_integer_eq (n : Nat) (st : List Byte) (el : List RliteReply) :
    Reply.new (.mk RLITE_REPLY_INTEGER n st el) = .ok (.Integer (toI64 n)) := by
  simp [Reply.new]

theorem new_array_eq (n : Nat) (st : List Byte) (el : List RliteReply) :
    Reply.new (.mk RLITE_REPLY_ARRAY n st el) =
      match Reply.newList el with
      | .ok vs => .ok (.Array vs)
      | .err m => .err m
      | .panic => .panic := by
  simp [Reply.new]

theorem new_unknown_eq (t : Int) (n : Nat) (st : List Byte) (el : List RliteReply)
    (h1 : t ≠ RLITE_REPLY_STRING) (h2 : t ≠ RLITE_REPLY_ARRAY)
    (h3 : t ≠ RLITE_REPLY_INTEGER) (h4 : t ≠ RLITE_REPLY_NIL)
    (h5 : t ≠ RLITE_REPLY_STATUS) (h6 : t ≠ RLITE_REPLY_ERROR) :
    Reply.new (.mk t n st el) = .err (unknownMsg t) := by
  simp [Reply.new, h1, h2, h3, h4, h5, h6]

theorem newList_nil_eq : Reply.newList [] = .ok [] := by
  simp [Reply.newList]

theorem newList_cons_eq (r : RliteReply) (rest : List RliteReply) :
    Reply.newList (r :: rest) =
      match Reply.new r with
      | .ok v =>
        match Reply.newList rest with
        | .ok vs => .ok (v :: vs)
        | .err m => .err m
        | .panic => .panic
      | .err m => .err m
      | .panic => .panic := by
  simp [Reply.newList]

/-! ## Properties of the child-decoding loop -/

/-- When the loop succeeds, it produced one value per child. -/
theorem newList_ok_length {l : List RliteReply} {vs : List Reply}
    (h : Reply.newList l = .ok vs) : vs.length = l.length := by
  induction l generalizing vs with
  | nil => rw [newList_nil_eq] at h; cases h; rfl
  | cons r rest ih =>
    rw [newList_cons_eq] at h
    cases hr : Reply.new r with
    | ok v =>
      rw [hr] at h
      cases ht : Reply.newList rest with
      | ok vs0 => rw [ht] at h; cases h; simpa using ih ht
      | err m => rw [ht] at h; cases h
      | panic => rw [ht] at h; cases h
    | err m => rw [hr] at h; cases h
    | panic => rw [hr] at h; cases h

/-- When the loop succeeds, the `i`-th produced value is the decoding of
the `i`-th child. -/
theorem newList_ok_get {l : List RliteReply} {vs : List Reply}
    (h : Reply.newList l = .ok vs) (i : Nat) (h1 : i < l.length) (h2 : i < vs.length) :
    Reply.new (l.get ⟨i, h1⟩) = .ok (vs.get ⟨i, h2⟩) := by
  induction l generalizing vs i with
  | nil => exact absurd h1 (by simp)
  | cons r rest ih =>
    rw [newList_cons_eq] at h
    cases hr : Reply.new r with
    | ok v =>
      rw [hr] at h
      cases ht : Reply.newList rest with
      | ok vs0 =>
        rw [ht] at h
        cases h
        cases i with
        | zero => simpa using hr
        | succ j => exact ih ht j (by simpa using h1) (by simpa using h2)
      | err m => rw [ht] at h; cases h
      | panic => rw [ht] at h; cases h
    | err m => rw [hr] at h; cases h
    | panic => rw [hr] at h; cases h

/-- When every child decodes to an `Ok` value, the loop succeeds. -/
theorem newList_all_ok {l : List RliteReply}
    (h : ∀ c, c ∈ l → ∃ v, Reply.new c = .ok v) :
    ∃ vs, Reply.newList l = .ok vs := by
  induction l with
  | nil => exact ⟨[], newList_nil_eq⟩
  | cons r rest ih =>
    obtain ⟨v, hv⟩ := h r (List.mem_cons_self r rest)
    obtain ⟨vs, hvs⟩ := ih fun c hc => h c (List.mem_cons_of_mem r hc)
    exact ⟨v :: vs, by rw [newList_cons_eq, hv, hvs]⟩

/-- The loop stops at the first erroring child: whatever records follow it
(`l2`), the loop yields the error of that child. -/
theorem newList_append_err {l1 : List RliteReply} {vs : List Reply}
    {e : RliteReply} {m : List Byte} (l2 : List RliteReply)
    (h1 : Reply.newList l1 = .ok vs) (h2 : Reply.new e = .err m) :
    Reply.newList (l1 ++ e :: l2) = .err m := by
  induction l1 generalizing vs with
  | nil => rw [List.nil_append, newList_cons_eq, h2]
  | cons r rest ih =>
    rw [newList_cons_eq] at h1
    cases hr : Reply.new r with
    | ok v =>
      rw [hr] at h1
      cases ht : Reply.newList rest with
      | ok vs0 =>
        rw [List.cons_append, newList_cons_eq, hr, ih ht]
      | err m0 => rw [ht] at h1; cases h1
      | panic => rw [ht] at h1; cases h1
    | err m0 => rw [hr] at h1; cases h1
    | panic => rw [hr] at h1; cases h1

/-! ## Claims about the decoder -/

/-- C1: `Reply::new` dispatches exactly on the tag of the record: a string tag
yields `Ok(Data(b))` with `b` the bytes of the record; a status tag yields
`Ok(Status(s))` with `s` those bytes as UTF-8 text; a nil tag yields
`Ok(Nil)` reading no bytes; an integer tag yields `Ok(Integer(n))` with
`n` the integer field reinterpreted as signed 64-bit; an array tag yields
`Ok(Array(vs))` with `vs` the in-order recursively decoded children, one
per child pointer, of length the element count of the record. -/
theorem C1_decoder_tag_dispatch (n : Nat) (st : List Byte) (el : List RliteReply) :
    Reply.new (.mk RLITE_REPLY_STRING n st el) = .ok (.Data st)
    ∧ (utf8Valid st = true → Reply.new (.mk RLITE_REPLY_STATUS n st el) = .ok (.Status st))
    ∧ Reply.new (.mk RLITE_REPLY_NIL n st el) = .ok .Nil
    ∧ Reply.new (.mk RLITE_REPLY_INTEGER n st el) = .ok (.Integer (toI64 n))
    ∧ ((∀ c, c ∈ el → ∃ v, Reply.new c = .ok v) →
        ∃ vs, Reply.new (.mk RLITE_REPLY_ARRAY n st el) = .ok (.Array vs)
          ∧ vs.length = el.length
          ∧ ∀ i (h1 : i < el.length) (h2 : i < vs.length),
              Reply.new (el.get ⟨i, h1⟩) = .ok (vs.get ⟨i, h2⟩)) := by
  refine ⟨new_string_eq n st el, ?_, new_nil_eq n st el, new_integer_eq n st el, ?_⟩
  · intro h
    rw [new_status_eq, h]
    rfl
  · intro h
    obtain ⟨vs, hvs⟩ := newList_all_ok h
    refine ⟨vs, ?_, newList_ok_length hvs, fun i h1 h2 => newList_ok_get hvs i h1 h2⟩
    rw [new_array_eq, hvs]

theorem C1_decoder_tag_dispatch_witness :
    utf8Valid [79, 75] = true
    ∧ Reply.new (.mk RLITE_REPLY_STATUS 0 [79, 75] [.mk RLITE_REPLY_NIL 0 [] []]) =
        .ok (.Status [79, 75])
    ∧ (∃ vs,
        Reply.new (.mk RLITE_REPLY_ARRAY 0 [79, 75] [.mk RLITE_REPLY_NIL 0 [] []]) =
          .ok (.Array vs)
        ∧ vs.length = [RliteReply.mk RLITE_REPLY_NIL 0 [] []].length
        ∧ ∀ i (h1 : i < [RliteReply.mk RLITE_REPLY_NIL 0 [] []].length)
            (h2 : i < vs.length),
            Reply.new ([RliteReply.mk RLITE_REPLY_NIL 0 [] []].get ⟨i, h1⟩) =
              .ok (vs.get ⟨i, h2⟩)) :=
  ⟨by decide,
   (C1_decoder_tag_dispatch 0 [79, 75] [.mk RLITE_REPLY_NIL 0 [] []]).2.1 (by decide),
   (C1_decoder_tag_dispatch 0 [79, 75] [.mk RLITE_REPLY_NIL 0 [] []]).2.2.2.2
     (fun c hc => ⟨.Nil, by rw [List.mem_singleton] at hc; rw [hc]; exact new_nil_eq 0 [] []⟩)⟩

/-- C2: an error-tag record makes `Reply::new` return `Err` with the
message text; inside an array, decoding aborts at the first erroring
child — the records after it (`l2`) do not influence the outcome — and
the array never produces a partially built `Ok` value. -/
theorem C2_error_short_circuits (n : Nat) (st : List Byte) (el : List RliteReply)
    (l1 l2 : List RliteReply) (e : RliteReply) (vs : List Reply) (m : List Byte) :
    (utf8Valid st = true → Reply.new (.mk RLITE_REPLY_ERROR n st el) = .err st)
    ∧ (Reply.newList l1 = .ok vs → Reply.new e = .err m →
        Reply.new (.mk RLITE_REPLY_ARRAY n st (l1 ++ e :: l2)) = .err m
        ∧ ∀ v, Reply.new (.mk RLITE_REPLY_ARRAY n st (l1 ++ e :: l2)) ≠ .ok v) := by
  constructor
  · intro h
    rw [new_error_eq, h]
    rfl
  · intro h1 h2
    have he : Reply.new (.mk RLITE_REPLY_ARRAY n st (l1 ++ e :: l2)) = .err m := by
      rw [new_array_eq, newList_append_err l2 h1 h2]
    exact ⟨he, fun v => by rw [he]; simp⟩

theorem C2_error_short_circuits_witness :
    utf8Valid [69, 82, 82] = true
    ∧ Reply.new (.mk RLITE_REPLY_ERROR 0 [69, 82, 82] []) = .err [69, 82, 82]
    ∧ Reply.new
        (.mk RLITE_REPLY_ARRAY 0 []
          ([RliteReply.mk RLITE_REPLY_NIL 0 [] []] ++
            RliteReply.mk RLITE_REPLY_ERROR 0 [69, 82, 82] [] ::
              [RliteReply.mk 9 0 [] []])) = .err [69, 82, 82] :=
  ⟨by decide,
   (C2_error_short_circuits 0 [69, 82, 82] [] [] [] (.mk RLITE_REPLY_NIL 0 [] [])
      [] [69, 82, 82]).1 (by decide),
   ((C2_error_short_circuits 0 [] [] [RliteReply.mk RLITE_REPLY_NIL 0 [] []]
      [RliteReply.mk 9 0 [] []] (.mk RLITE_REPLY_ERROR 0 [69, 82, 82] []) [Reply.Nil]
      [69, 82, 82]).2
     (by rw [newList_cons_eq, new_nil_eq, newList_nil_eq])
     (by have h : utf8Valid [69, 82, 82] = true := by decide
         rw [new_error_eq, h]
         rfl)).1⟩

/-- C5: a status-tag record with valid UTF-8 bytes decodes to
`Ok(Status(text))`; with invalid bytes the failed `unwrap` is a panic
(an unrecoverable fault), never a returned `Err`. -/
theorem C5_status_utf8_fatal (n : Nat) (st : List Byte) (el : List RliteReply) :
    (utf8Valid st = true → Reply.new (.mk RLITE_REPLY_STATUS n st el) = .ok (.Status st))
    ∧ (utf8Valid st = false →
        Reply.new (.mk RLITE_REPLY_STATUS n st el) = .panic
        ∧ ∀ m, Reply.new (.mk RLITE_REPLY_STATUS n st el) ≠ .err m) := by
  constructor
  · intro h
    rw [new_status_eq, h]
    rfl
  · intro h
    have he : Reply.new (.mk RLITE_REPLY_STATUS n st el) = .panic := by
      rw [new_status_eq, h]
      rfl
    exact ⟨he, fun m => by rw [he]; simp⟩

theorem C5_status_utf8_fatal_witness :
    (utf8Valid [79, 75] = true
      ∧ Reply.new (.mk RLITE_REPLY_STATUS 0 [79, 75] []) = .ok (.Status [79, 75]))
    ∧ (utf8Valid [255] = false
      ∧ Reply.new (.mk RLITE_REPLY_STATUS 0 [255] []) = .panic) :=
  ⟨⟨by decide, (C5_status_utf8_fatal 0 [79, 75] []).1 (by decide)⟩,
   ⟨by decide, ((C5_status_utf8_fatal 0 [255] []).2 (by decide)).1⟩⟩

/-- C8: a record whose tag is none of the six recognized values decodes
to the unrecognized-reply `Err` naming the tag, and never panics. -/
theorem C8_unknown_tag_err (t : Int) (n : Nat) (st : List Byte) (el : List RliteReply)
    (h1 : t ≠ RLITE_REPLY_STRING) (h2 : t ≠ RLITE_REPLY_ARRAY)
    (h3 : t ≠ RLITE_REPLY_INTEGER) (h4 : t ≠ RLITE_REPLY_NIL)
    (h5 : t ≠ RLITE_REPLY_STATUS) (h6 : t ≠ RLITE_REPLY_ERROR) :
    Reply.new (.mk t n st el) = .err (unknownMsg t)
    ∧ Reply.new (.mk t n st el) ≠ .panic := by
  have h := new_unknown_eq t n st el h1 h2 h3 h4 h5 h6
  exact ⟨h, by rw [h]; simp⟩

theorem C8_unknown_tag_err_witness :
    Reply.new (.mk 9 0 [] []) = .err (unknownMsg 9)
    ∧ Reply.new (.mk 9 0 [] []) ≠ .panic :=
  C8_unknown_tag_err 9 0 [] [] (by decide) (by decide) (by decide) (by decide)
    (by decide) (by decide)

/-- C10: an error-tag record whose message bytes are not valid UTF-8
makes `Reply::new` panic (the `unwrap` of `String::from_utf8`), rather
than returning the message as an `Err` value. -/
theorem C10_error_tag_invalid_utf8_panics (n : Nat) (st : List Byte)
    (el : List RliteReply) (h : utf8Valid st = false) :
    Reply.new (.mk RLITE_REPLY_ERROR n st el) = .panic
    ∧ ∀ m, Reply.new (.mk RLITE_REPLY_ERROR n st el) ≠ .err m := by
  have he : Reply.new (.mk RLITE_REPLY_ERROR n st el) = .panic := by
    rw [new_error_eq, h]
    rfl
  exact ⟨he, fun m => by rw [he]; simp⟩

theorem C10_error_tag_invalid_utf8_panics_witness :
    utf8Valid [255] = false
    ∧ Reply.new (.mk RLITE_REPLY_ERROR 0 [255] []) = .panic :=
  ⟨by decide, (C10_error_tag_invalid_utf8_panics 0 [255] [] (by decide)).1⟩

/-! ## Claims about the connection operations -/

/-- C3: whenever `rliteGetReply` succeeds with a non-null record and the
decode does not panic — i.e. `Reply::new` either succeeds or returns an
error — the trace of `read_reply` on the record is exactly one decode followed
by exactly one `rliteFreeReplyObject` call; a null record (and a failed
retrieval) triggers no free at all. -/
theorem C3_free_reply_exactly_once (r : RliteReply) (status : Int) :
    (Reply.new r ≠ .panic → (read_reply 0 (some r)).events = [.decode, .free])
    ∧ (read_reply status none).events.count .free = 0 := by
  constructor
  · intro h
    cases hr : Reply.new r with
    | ok v => simp [read_reply, hr]
    | err m => simp [read_reply, hr]
    | panic => exact absurd hr h
  · by_cases hs : status = 0 <;> simp [read_reply, hs]

theorem C3_free_reply_exactly_once_witness :
    Reply.new (RliteReply.mk RLITE_REPLY_NIL 0 [] []) ≠ .panic
    ∧ (read_reply 0 (some (.mk RLITE_REPLY_NIL 0 [] []))).events = [.decode, .free] :=
  ⟨by rw [new_nil_eq]; simp,
   (C3_free_reply_exactly_once (.mk RLITE_REPLY_NIL 0 [] []) 1).1
     (by rw [new_nil_eq]; simp)⟩

/-- C4: when `rliteGetReply` reports success (status 0) but writes a null
reply pointer, `read_reply` returns `Ok(Reply::Nil)` immediately: no
decode and no free is performed. -/
theorem C4_null_reply_is_nil :
    (read_reply 0 none).result = .ok .Nil ∧ (read_reply 0 none).events = [] := by
  constructor <;> simp [read_reply]

/-- C6 counterexample: the generic retrieval failure is the value
`Err("Failed")`, and an engine error reply whose message text is exactly
`"Failed"` produces the identical value through the decode path — so the
generic failure is not distinct from every engine reply error message. -/
theorem C6_failure_not_distinct_counterexample :
    (read_reply 1 none).result = .err failedMsg
    ∧ (read_reply 0 (some (.mk RLITE_REPLY_ERROR 0 failedMsg []))).result =
        .err failedMsg := by
  constructor
  · simp [read_reply]
  · have h : Reply.new (.mk RLITE_REPLY_ERROR 0 failedMsg []) = .err failedMsg := by
      have hv : utf8Valid failedMsg = true := by decide
      rw [new_error_eq, hv]
      rfl
    simp [read_reply, h]

/-- C6 amended: when `rliteGetReply` returns a nonzero status,
`read_reply` returns the fixed value `Err("Failed")`, which differs from
every unknown-tag decode error (those messages start with
`"Unknown reply type "`); it is not, however, distinct from every engine
reply error message, since an error reply whose text is exactly
`"Failed"` yields the same value. -/
theorem C6_failure_value_amended (status : Int) (reply : Option RliteReply)
    (t : Int) (h : status ≠ 0) :
    (read_reply status reply).result = .err failedMsg
    ∧ failedMsg ≠ unknownMsg t := by
  constructor
  · simp [read_reply, h]
  · simp [failedMsg, unknownMsg, unknownPrefix]

theorem C6_failure_value_amended_witness :
    (1 : Int) ≠ 0
    ∧ (read_reply 1 none).result = .err failedMsg
    ∧ failedMsg ≠ unknownMsg 9 :=
  ⟨by decide, (C6_failure_value_amended 1 none 9 (by decide)).1,
   (C6_failure_value_amended 1 none 9 (by decide)).2⟩

/-- C7 counterexample: the location whose single byte is NUL is valid
UTF-8 but cannot be represented as a C string; `Rlite::file` panics on it
(the `unwrap` of `CString::new`) instead of returning the `Err` the claim
requires on every failure. -/
theorem C7_open_counterexample :
    Rlite.file [0] (fun _ => 1) = .panic ∧ FileResult.panic ≠ FileResult.err := by
  refine ⟨?_, by simp⟩
  have h1 : utf8Valid [0] = true := by decide
  have h2 : List.contains [0] 0 = true := by decide
  simp [Rlite.file, h1, h2]

/-- C7 amended: `Rlite::file` returns `Err` when the path bytes are not
valid UTF-8 (`Path::to_str` fails); it panics — an escalated fault, not an
`Err` — when the UTF-8 path contains an interior NUL byte (the `unwrap`
of `CString::new`); otherwise it returns `Err` exactly when `rliteConnect`
yields a null handle, and `Ok` carrying the obtained handle otherwise. -/
theorem C7_open_durable_amended (p : List Byte) (connect : List Byte → Nat) :
    (utf8Valid p = false → Rlite.file p connect = .err)
    ∧ (utf8Valid p = true → p.contains 0 = true → Rlite.file p connect = .panic)
    ∧ (utf8Valid p = true → p.contains 0 = false → connect p ≠ 0 →
        Rlite.file p connect = .ok (connect p))
    ∧ (utf8Valid p = true → p.contains 0 = false → connect p = 0 →
        Rlite.file p connect = .err) := by
  refine ⟨?_, ?_, ?_, ?_⟩
  · intro h
    simp [Rlite.file, h]
  · intro h1 h2
    have h2m : 0 ∈ p := by simpa using h2
    simp [Rlite.file, h1, h2m]
  · intro h1 h2 h3
    have h2m : 0 ∉ p := by simpa using h2
    simp [Rlite.file, h1, h2m, h3]
  · intro h1 h2 h3
    have h2m : 0 ∉ p := by simpa using h2
    simp [Rlite.file, h1, h2m, h3]

theorem C7_open_durable_amended_witness :
    (utf8Valid [255] = false ∧ Rlite.file [255] (fun _ => 1) = .err)
    ∧ Rlite.file [0] (fun _ => 1) = .panic
    ∧ Rlite.file [97] (fun _ => 1) = .ok 1
    ∧ Rlite.file [97] (fun _ => 0) = .err :=
  ⟨⟨by decide, (C7_open_durable_amended [255] (fun _ => 1)).1 (by decide)⟩,
   (C7_open_durable_amended [0] (fun _ => 1)).2.1 (by decide) (by decide),
   (C7_open_durable_amended [97] (fun _ => 1)).2.2.1 (by decide) (by decide) (by decide),
   (C7_open_durable_amended [97] (fun _ => 0)).2.2.2 (by decide) (by decide) (by decide)⟩

/-- C9: `write_command` hands `rliteAppendCommandArgv` the argument count
and the two parallel vectors — the pointed-to bytes of each argument and
the length of each argument — and returns `Ok(())` exactly when the engine
returns status 0, `Err(())` otherwise; the returned value carries no
reply. -/
theorem C9_write_command_submission (command : List (List Byte))
    (engine : EncodedCommand → Int) (h : command.length < 2 ^ 31) :
    (encodeCommand command).argc = (command.length : Int)
    ∧ (encodeCommand command).argv = command
    ∧ (encodeCommand command).argvlen = command.map List.length
    ∧ (encodeCommand command).argvlen.length = command.length
    ∧ (∀ i (h1 : i < command.length) (h2 : i < (encodeCommand command).argvlen.length),
        (encodeCommand command).argvlen.get ⟨i, h2⟩ = (command.get ⟨i, h1⟩).length)
    ∧ (write_command command engine = .ok () ↔ engine (encodeCommand command) = 0)
    ∧ (engine (encodeCommand command) ≠ 0 → write_command command engine = .error ()) := by
  refine ⟨?_, rfl, rfl, by simp [encodeCommand], ?_, ?_, ?_⟩
  · show toI32 command.length = (command.length : Int)
    have hm : command.length % 2 ^ 32 = command.length := Nat.mod_eq_of_lt (by omega)
    simp only [toI32]
    rw [hm, if_pos h]
  · intro i h1 h2
    simp [encodeCommand]
  · by_cases he : engine (encodeCommand command) = 0 <;> simp [write_command, he]
  · intro he
    simp [write_command, he]

theorem C9_write_command_submission_witness :
    [[104, 105], [121, 111]].length < 2 ^ 31
    ∧ (encodeCommand [[104, 105], [121, 111]]).argc = (2 : Int)
    ∧ (write_command [[104, 105], [121, 111]] (fun _ => 0) = .ok () ↔
        (fun _ => (0 : Int)) (encodeCommand [[104, 105], [121, 111]]) = 0) :=
  ⟨by decide,
   (C9_write_command_submission [[104, 105], [121, 111]] (fun _ => 0) (by decide)).1,
   (C9_write_command_submission [[104, 105], [121, 111]] (fun _ => 0) (by decide)).2.2.2.2.2.1⟩
